import Mathlib

/-!
# MyTerminal session logic (`src/main.cpp`)

A shallow embedding of the non-UI logic of `TerminalWindow`: the slots
`sendCommand`, `shellStarted`, `shellFinished`, `shellError`, the teardown
paths `closeEvent` and `~TerminalWindow`, and `startShell`.

The widgets are reduced to the data the slots read and write: the lines
appended to the output pane, the text and enabled flag of the input line,
the status label, and the owned `QProcess`.  The `QProcess` object is
reduced to its configuration, its `state()`, the bytes handed to `write`,
and the log of control calls made on it.  What the operating system does
(whether a wait succeeds, which signals arrive) is an explicit argument of
the function that observes it.
-/

namespace MyTerminal

/-! ## Data model -/

/-- Values of `QProcess::ProcessState`. -/
inductive ProcessState where
  | NotRunning
  | Starting
  | Running
  deriving DecidableEq, Repr

/-- Values of `QProcess::ExitStatus`. -/
inductive ExitStatus where
  | NormalExit
  | CrashExit
  deriving DecidableEq, Repr

/-- Values of `QProcess::ProcessError`. -/
inductive ProcessError where
  | FailedToStart
  | Crashed
  | Timedout
  | ReadError
  | WriteError
  | UnknownError
  deriving DecidableEq, Repr

/-- Control calls the window makes on its `QProcess`. -/
inductive ProcessCall where
  | start
  | waitForStarted (msecs : Nat)
  | terminate
  | waitForFinished (msecs : Nat)
  | kill
  deriving DecidableEq, Repr

/-- Bytes of a `QByteArray`. -/
abbrev QByteArray := List Nat

/-- The part of a `QProcess` that the window configures, queries or drives. -/
structure QProcess where
  /-- Set by `setProgram`. -/
  program : String
  /-- Set by `setArguments`. -/
  arguments : List String
  /-- Set by `setProcessEnvironment`. -/
  environment : List (String × String)
  /-- Result of `state()`. -/
  state : ProcessState
  /-- Everything handed to `write`, in order: the child's input stream. -/
  written : QByteArray
  /-- Control calls made so far, oldest first. -/
  calls : List ProcessCall
  deriving DecidableEq, Repr

/-- The members of `TerminalWindow` that the session logic touches. -/
structure TerminalWindow where
  /-- Paragraphs appended to the `output` pane, oldest first. -/
  output : List String
  /-- The text of the `input` line: the pending input. -/
  inputText : String
  /-- Whether the `input` line is enabled. -/
  inputEnabled : Bool
  /-- The text of `statusLabel`. -/
  statusLabel : String
  /-- The `shell` pointer; `none` is the null pointer. -/
  shell : Option QProcess
  deriving DecidableEq, Repr

/-- A modal box shown by `QMessageBox::warning`. -/
structure MessageBox where
  title : String
  text : String
  deriving DecidableEq, Repr

/-- The signals of `QProcess` that `startShell` connects to the lifecycle slots. -/
inductive Signal where
  | started
  | finished (exitCode : Int) (status : ExitStatus)
  | errorOccurred (error : ProcessError)
  deriving DecidableEq, Repr

/-- What a bounded `waitForFinished` observes: the wait times out, or the
child is gone with an exit code and an exit status. -/
inductive WaitOutcome where
  | timedOut
  | exited (exitCode : Int) (status : ExitStatus)
  deriving DecidableEq, Repr

/-! ## Text encoding -/

/-- UTF-8 bytes of one character. -/
def utf8EncodeChar (c : Char) : QByteArray :=
  let v := c.toNat
  if v < 0x80 then [v]
  else if v < 0x800 then [0xC0 + v / 64, 0x80 + v % 64]
  else if v < 0x10000 then [0xE0 + v / 4096, 0x80 + v / 64 % 64, 0x80 + v % 64]
  else [0xF0 + v / 262144, 0x80 + v / 4096 % 64, 0x80 + v / 64 % 64, 0x80 + v % 64]

/-- UTF-8 as the local 8-bit codec, the case of `QString::toLocal8Bit` on a
UTF-8 locale. -/
def utf8 (s : String) : QByteArray :=
  (s.data.map utf8EncodeChar).flatten

/-! ## `sendCommand` -/

/-- The slot `sendCommand` (lines 91-106).  `toLocal8Bit` is the local codec.
The result is the warning box when the guard rejects the call. -/
def sendCommand (toLocal8Bit : String → QByteArray) (w : TerminalWindow) :
    Except MessageBox Unit × TerminalWindow :=
  match w.shell with
  | none => (.error ⟨"Terminal", "Shell is not running."⟩, w)
  | some shell =>
    if shell.state ≠ ProcessState.Running then
      (.error ⟨"Terminal", "Shell is not running."⟩, w)
    else
      let cmd := w.inputText
      let shell1 :=
        if !cmd.isEmpty then
          { shell with written := shell.written ++ toLocal8Bit (cmd ++ "\n") }
        else shell
      (.ok (), { w with shell := some shell1, inputText := "" })

/-! ## Lifecycle slots -/

/-- The slot `shellStarted` (lines 126-129). -/
def shellStarted (w : TerminalWindow) : TerminalWindow :=
  { w with statusLabel := "Shell running" }

/-- The message computed by `shellFinished` (lines 133-135). -/
def finishedMsg (exitCode : Int) (status : ExitStatus) : String :=
  let msg := "Shell finished (exit code " ++ toString exitCode ++ ")"
  if status = ExitStatus.CrashExit then "Shell crashed" else msg

/-- The slot `shellFinished` (lines 131-139). -/
def shellFinished (exitCode : Int) (status : ExitStatus) (w : TerminalWindow) :
    TerminalWindow :=
  let msg := finishedMsg exitCode status
  { w with statusLabel := msg, inputEnabled := false, output := w.output ++ [msg] }

/-- The message chosen by the switch of `shellError` (lines 143-153). -/
def errorMsg (error : ProcessError) : String :=
  match error with
  | ProcessError.FailedToStart => "Shell failed to start"
  | ProcessError.Crashed => "Shell crashed"
  | _ => "Shell error"

/-- The slot `shellError` (lines 141-157). -/
def shellError (error : ProcessError) (w : TerminalWindow) : TerminalWindow :=
  let msg := errorMsg error
  { w with statusLabel := msg, output := w.output ++ [msg], inputEnabled := false }

/-! ## Signal delivery -/

/-- The state a `QProcess` is in when it emits a signal: `started` is emitted
on entering `Running`, `finished` and a failed launch on entering
`NotRunning`; other errors leave the state as it is. -/
def QProcess.stateOn (p : QProcess) (s : Signal) : ProcessState :=
  match s with
  | Signal.started => ProcessState.Running
  | Signal.finished _ _ => ProcessState.NotRunning
  | Signal.errorOccurred ProcessError.FailedToStart => ProcessState.NotRunning
  | Signal.errorOccurred _ => p.state

/-- The slot connected to each signal by `startShell` (lines 209-212). -/
def slot (s : Signal) (w : TerminalWindow) : TerminalWindow :=
  match s with
  | Signal.started => shellStarted w
  | Signal.finished exitCode status => shellFinished exitCode status w
  | Signal.errorOccurred error => shellError error w

/-- One signal emitted by the owned process: the process is in its new state
and the connected slot runs. -/
def deliver (w : TerminalWindow) (s : Signal) : TerminalWindow :=
  slot s { w with shell := w.shell.map fun p => { p with state := p.stateOn s } }

/-- A sequence of signals, delivered in order. -/
def deliverAll (w : TerminalWindow) (sigs : List Signal) : TerminalWindow :=
  sigs.foldl deliver w

/-- Whether a signal reports the end of the session. -/
def Signal.isTerminal : Signal → Bool
  | Signal.started => false
  | Signal.finished _ _ => true
  | Signal.errorOccurred _ => true

/-- The signals a `QProcess` emits when its child is gone: a crash is reported
through `errorOccurred(Crashed)` and then through `finished`. -/
def exitSignals (exitCode : Int) (status : ExitStatus) : List Signal :=
  (if status = ExitStatus.CrashExit then [Signal.errorOccurred ProcessError.Crashed] else [])
    ++ [Signal.finished exitCode status]

/-! ## Process control -/

/-- Records a control call on the owned process. -/
def call (c : ProcessCall) (w : TerminalWindow) : TerminalWindow :=
  { w with shell := w.shell.map fun p => { p with calls := p.calls ++ [c] } }

/-- `shell->terminate()`: the request is sent, the state is not changed. -/
def terminate (w : TerminalWindow) : TerminalWindow :=
  call ProcessCall.terminate w

/-- `shell->kill()`: the kill is sent, the state is not changed until the exit
is observed. -/
def kill (w : TerminalWindow) : TerminalWindow :=
  call ProcessCall.kill w

/-- `shell->waitForFinished(msecs)`: returns `false` on a timeout; when the
child is gone within the bound its exit signals are delivered and the result
is `true`. -/
def waitForFinished (msecs : Nat) (wait : WaitOutcome) (w : TerminalWindow) :
    Bool × TerminalWindow :=
  let w1 := call (ProcessCall.waitForFinished msecs) w
  match wait with
  | WaitOutcome.timedOut => (false, w1)
  | WaitOutcome.exited exitCode status => (true, deliverAll w1 (exitSignals exitCode status))

/-- The teardown of `closeEvent` (lines 79-88); `wait` is what the bounded
wait observes. -/
def closeEvent (wait : WaitOutcome) (w : TerminalWindow) : TerminalWindow :=
  match w.shell with
  | none => w
  | some shell =>
    if shell.state ≠ ProcessState.NotRunning then
      let w1 := terminate w
      let (finished, w2) := waitForFinished 1000 wait w1
      if !finished then kill w2 else w2
    else w

/-- The destructor `~TerminalWindow` (lines 70-76). -/
def destructor (wait : WaitOutcome) (w : TerminalWindow) : TerminalWindow :=
  match w.shell with
  | none => w
  | some shell =>
    if shell.state ≠ ProcessState.NotRunning then
      let w1 := terminate w
      (waitForFinished 1000 wait w1).2
    else w

/-- The control calls logged on the owned process. -/
def callsOf (w : TerminalWindow) : List ProcessCall :=
  match w.shell with
  | none => []
  | some p => p.calls

/-! ## `startShell` -/

/-- `qgetenv(name)` decoded: the value of the first entry for `name`, empty
when there is none. -/
def qgetenv (env : List (String × String)) (name : String) : String :=
  (env.lookup name).getD ""

/-- The program path chosen by `startShell` (lines 202-204). -/
def resolveShellPath (env : List (String × String)) : String :=
  let shellPath := qgetenv env "SHELL"
  if shellPath.isEmpty then "/bin/sh" else shellPath

/-- `QProcessEnvironment::insert`: sets `key`, replacing an earlier value. -/
def envInsert (env : List (String × String)) (key value : String) :
    List (String × String) :=
  env.filter (fun kv => kv.1 ≠ key) ++ [(key, value)]

/-- `startShell` (lines 200-231).  `env` is the ambient environment, `sigs`
are the signals emitted by the new process until `waitForStarted` returns,
and `startedInTime` is the result of `waitForStarted(3000)`. -/
def startShell (env : List (String × String)) (sigs : List Signal)
    (startedInTime : Bool) (w : TerminalWindow) : TerminalWindow :=
  let shellPath := resolveShellPath env
  let env1 := envInsert env "TERM" "xterm-256color"
  let env2 := envInsert env1 "PS1" "\\u@\\h:\\w $ "
  let shell : QProcess :=
    { program := shellPath, arguments := ["-i"], environment := env2,
      state := ProcessState.NotRunning, written := [], calls := [] }
  let w1 := { w with shell := some shell,
                     output := w.output ++ ["Starting " ++ shellPath ++ "...\n"] }
  let w2 := call ProcessCall.start
    { w1 with shell := w1.shell.map fun p => { p with state := ProcessState.Starting } }
  let w3 := deliverAll (call (ProcessCall.waitForStarted 3000) w2) sigs
  if !startedInTime then
    { w3 with output := w3.output ++ ["Failed to start shell."], inputEnabled := false }
  else w3

/-- A window as the constructor leaves it before `startShell` runs. -/
def freshWindow : TerminalWindow :=
  { output := [], inputText := "", inputEnabled := true,
    statusLabel := "Not connected", shell := none }

/-- A window whose shell is in the given state with the given pending input. -/
def windowWith (st : ProcessState) (text : String) : TerminalWindow :=
  { output := ["Starting /bin/sh...\n"], inputText := text, inputEnabled := true,
    statusLabel := "Shell running",
    shell := some { program := "/bin/sh", arguments := ["-i"],
                    environment := [("TERM", "xterm-256color"), ("PS1", "\\u@\\h:\\w $ ")],
                    state := st, written := [],
                    calls := [ProcessCall.start, ProcessCall.waitForStarted 3000] } }

/-! ## Sending input -/

/-- C1: when the shell pointer is null or the process is not in the Running
state, sendCommand reports "Shell is not running." and leaves the whole window
unchanged: nothing is written to the child and the pending input text stays. -/
theorem sendCommand_notRunning (toLocal8Bit : String → QByteArray) (w : TerminalWindow)
    (h : w.shell = none ∨ ∃ p, w.shell = some p ∧ p.state ≠ ProcessState.Running) :
    sendCommand toLocal8Bit w = (.error ⟨"Terminal", "Shell is not running."⟩, w) := by
  rcases h with h | ⟨p, hp, hs⟩
  · simp [sendCommand, h]
  · simp [sendCommand, hp, hs]

theorem sendCommand_notRunning_witness :
    sendCommand utf8 (windowWith ProcessState.NotRunning "ls")
      = (.error ⟨"Terminal", "Shell is not running."⟩,
         windowWith ProcessState.NotRunning "ls") :=
  sendCommand_notRunning utf8 (windowWith ProcessState.NotRunning "ls")
    (Or.inr ⟨_, rfl, by decide⟩)

/-- The UTF-8 codec maps a line followed by a newline to the bytes of the line
followed by the single byte 10. -/
theorem utf8_append_newline (s : String) : utf8 (s ++ "\n") = utf8 s ++ [10] := by
  simp [utf8, utf8EncodeChar]

/-- The guard of `sendCommand` passes on a running shell. -/
theorem sendCommand_running (toLocal8Bit : String → QByteArray) (w : TerminalWindow)
    (p : QProcess) (hp : w.shell = some p) (hs : p.state = ProcessState.Running) :
    sendCommand toLocal8Bit w =
      (.ok (), { w with
        shell := some (if !w.inputText.isEmpty then
            { p with written := p.written ++ toLocal8Bit (w.inputText ++ "\n") }
          else p),
        inputText := "" }) := by
  simp [sendCommand, hp, hs]

/-- C2: for a non-empty input line on a Running shell, sendCommand succeeds and
appends to the child's input stream exactly the local encoding of the line
followed by a newline, changing nothing else of the process; under the UTF-8
codec these are the bytes of the line followed by the single byte 10. -/
theorem sendCommand_writes_line (toLocal8Bit : String → QByteArray) (w : TerminalWindow)
    (p : QProcess) (hp : w.shell = some p) (hs : p.state = ProcessState.Running)
    (hne : w.inputText ≠ "") :
    sendCommand toLocal8Bit w =
        (.ok (), { w with
          shell := some { p with written := p.written ++ toLocal8Bit (w.inputText ++ "\n") },
          inputText := "" })
      ∧ ((sendCommand utf8 w).2.shell.map fun q => q.written)
          = some (p.written ++ utf8 w.inputText ++ [10]) := by
  have he : w.inputText.isEmpty = false := by
    cases h : w.inputText.isEmpty
    · rfl
    · exact absurd ((String.isEmpty_iff _).1 h) hne
  constructor
  · rw [sendCommand_running toLocal8Bit w p hp hs]; simp [he]
  · rw [sendCommand_running utf8 w p hp hs]
    simp [he, utf8_append_newline]

theorem sendCommand_writes_line_witness :
    sendCommand utf8 (windowWith ProcessState.Running "echo hi") =
        (.ok (), { windowWith ProcessState.Running "echo hi" with
          shell := some { program := "/bin/sh", arguments := ["-i"],
                          environment :=
                            [("TERM", "xterm-256color"), ("PS1", "\\u@\\h:\\w $ ")],
                          state := ProcessState.Running,
                          written := [] ++ utf8 ("echo hi" ++ "\n"),
                          calls := [ProcessCall.start, ProcessCall.waitForStarted 3000] },
          inputText := "" })
      ∧ ((sendCommand utf8 (windowWith ProcessState.Running "echo hi")).2.shell.map
            fun q => q.written)
          = some ([] ++ utf8 "echo hi" ++ [10]) :=
  sendCommand_writes_line utf8 (windowWith ProcessState.Running "echo hi") _ rfl rfl
    (by decide)

/-- The bytes the child receives for the line `echo hi`. -/
theorem sendCommand_echo_hi :
    ((sendCommand utf8 (windowWith ProcessState.Running "echo hi")).2.shell.map
        fun q => q.written)
      = some [101, 99, 104, 111, 32, 104, 105, 10] := by
  decide

/-- C3: on a Running shell with an empty input line, sendCommand succeeds and
writes nothing to the child: the window is left exactly as it was. -/
theorem sendCommand_empty (toLocal8Bit : String → QByteArray) (w : TerminalWindow)
    (p : QProcess) (hp : w.shell = some p) (hs : p.state = ProcessState.Running)
    (he : w.inputText = "") :
    sendCommand toLocal8Bit w = (.ok (), w) := by
  rw [sendCommand_running toLocal8Bit w p hp hs]
  have h0 : ("" : String).isEmpty = true := rfl
  cases w
  simp_all

theorem sendCommand_empty_witness :
    sendCommand utf8 (windowWith ProcessState.Running "")
      = (.ok (), windowWith ProcessState.Running "") :=
  sendCommand_empty utf8 (windowWith ProcessState.Running "") _ rfl rfl rfl

/-! ## Teardown -/

/-- Delivering a signal changes the owned process in its state only. -/
theorem deliver_shell (w : TerminalWindow) (s : Signal) :
    (deliver w s).shell = w.shell.map fun p => { p with state := p.stateOn s } := by
  cases s <;> rfl

/-- A projection of the process that ignores its state is not changed by signals. -/
theorem deliverAll_shell_map {α : Type} (f : QProcess → α)
    (hf : ∀ (p : QProcess) (st : ProcessState), f { p with state := st } = f p)
    (sigs : List Signal) (w : TerminalWindow) :
    (deliverAll w sigs).shell.map f = w.shell.map f := by
  induction sigs generalizing w with
  | nil => rfl
  | cons s rest ih =>
    have h1 : deliverAll w (s :: rest) = deliverAll (deliver w s) rest := rfl
    rw [h1, ih, deliver_shell]
    cases w.shell <;> simp [hf]

/-- Signals leave the log of control calls as it is. -/
theorem callsOf_deliverAll (w : TerminalWindow) (sigs : List Signal) :
    callsOf (deliverAll w sigs) = callsOf w := by
  have h := deliverAll_shell_map (fun p => p.calls) (fun _ _ => rfl) sigs w
  unfold callsOf
  cases h1 : (deliverAll w sigs).shell <;> cases h2 : w.shell <;> simp_all

/-- A control call on an existing process is appended to its log. -/
theorem callsOf_call (c : ProcessCall) (w : TerminalWindow) (p : QProcess)
    (hp : w.shell = some p) : callsOf (call c w) = p.calls ++ [c] := by
  simp [callsOf, call, hp]

/-- The teardown when the wait times out: terminate, wait, kill. -/
theorem closeEvent_timedOut (w : TerminalWindow) (p : QProcess)
    (hp : w.shell = some p) (hs : p.state ≠ ProcessState.NotRunning) :
    closeEvent WaitOutcome.timedOut w =
      kill (call (ProcessCall.waitForFinished 1000) (terminate w)) := by
  simp [closeEvent, hp, hs, waitForFinished]

/-- The teardown when the child exits within the wait: terminate, wait, and the
exit signals are delivered. -/
theorem closeEvent_exited (exitCode : Int) (status : ExitStatus) (w : TerminalWindow)
    (p : QProcess) (hp : w.shell = some p) (hs : p.state ≠ ProcessState.NotRunning) :
    closeEvent (WaitOutcome.exited exitCode status) w =
      deliverAll (call (ProcessCall.waitForFinished 1000) (terminate w))
        (exitSignals exitCode status) := by
  simp [closeEvent, hp, hs, waitForFinished]

/-- C4: on a session whose process is alive (state other than NotRunning),
closeEvent first requests termination, then waits up to 1000 ms, and issues a
kill exactly when that wait timed out; when the process exits within the wait
no kill is issued. -/
theorem closeEvent_calls (wait : WaitOutcome) (w : TerminalWindow) (p : QProcess)
    (hp : w.shell = some p) (hs : p.state ≠ ProcessState.NotRunning) :
    callsOf (closeEvent wait w) =
        p.calls ++ [ProcessCall.terminate, ProcessCall.waitForFinished 1000]
          ++ (if wait = WaitOutcome.timedOut then [ProcessCall.kill] else [])
      ∧ (ProcessCall.kill ∈ (callsOf (closeEvent wait w)).drop p.calls.length
          ↔ wait = WaitOutcome.timedOut) := by
  have key : callsOf (closeEvent wait w) =
        p.calls ++ [ProcessCall.terminate, ProcessCall.waitForFinished 1000]
          ++ (if wait = WaitOutcome.timedOut then [ProcessCall.kill] else []) := by
    cases wait with
    | timedOut =>
      rw [closeEvent_timedOut w p hp hs]
      simp [terminate, kill, call, callsOf, hp]
    | exited exitCode status =>
      rw [closeEvent_exited exitCode status w p hp hs, callsOf_deliverAll]
      simp [terminate, call, callsOf, hp]
  refine ⟨key, ?_⟩
  rw [key, List.append_assoc, List.drop_left]
  cases wait <;> simp

theorem closeEvent_calls_witness :
    callsOf (closeEvent WaitOutcome.timedOut (windowWith ProcessState.Running "")) =
        [ProcessCall.start, ProcessCall.waitForStarted 3000]
          ++ [ProcessCall.terminate, ProcessCall.waitForFinished 1000]
          ++ (if WaitOutcome.timedOut = WaitOutcome.timedOut then [ProcessCall.kill] else [])
      ∧ (ProcessCall.kill ∈
            (callsOf (closeEvent WaitOutcome.timedOut
              (windowWith ProcessState.Running ""))).drop
                [ProcessCall.start, ProcessCall.waitForStarted 3000].length
          ↔ WaitOutcome.timedOut = WaitOutcome.timedOut) :=
  closeEvent_calls WaitOutcome.timedOut (windowWith ProcessState.Running "") _ rfl
    (by decide)

/-- The guard of `closeEvent` skips a process that is not alive. -/
theorem closeEvent_notAlive (wait : WaitOutcome) (w : TerminalWindow)
    (h : w.shell = none ∨ ∃ p, w.shell = some p ∧ p.state = ProcessState.NotRunning) :
    closeEvent wait w = w := by
  rcases h with h | ⟨p, hp, hs⟩
  · simp [closeEvent, h]
  · simp [closeEvent, hp, hs]

/-- Once the exit signals of the child are delivered the process is NotRunning. -/
theorem deliverAll_exitSignals_state (exitCode : Int) (status : ExitStatus)
    (w : TerminalWindow) (p : QProcess) (hp : w.shell = some p) :
    (deliverAll w (exitSignals exitCode status)).shell
      = some { p with state := ProcessState.NotRunning } := by
  cases status <;>
    simp [deliverAll, exitSignals, deliver, slot, shellFinished, shellError, hp,
      QProcess.stateOn]

/-- C5 (evaluation): on a Running process that does not exit within the wait,
closeEvent issues terminate, wait and kill, while the destructor issues
terminate and wait only. -/
theorem destructor_omits_kill :
    callsOf (closeEvent WaitOutcome.timedOut (windowWith ProcessState.Running ""))
        = [ProcessCall.start, ProcessCall.waitForStarted 3000, ProcessCall.terminate, ProcessCall.waitForFinished 1000,
           ProcessCall.kill]
      ∧ callsOf (destructor WaitOutcome.timedOut (windowWith ProcessState.Running ""))
        = [ProcessCall.start, ProcessCall.waitForStarted 3000, ProcessCall.terminate, ProcessCall.waitForFinished 1000]
      ∧ ((destructor WaitOutcome.timedOut (windowWith ProcessState.Running "")).shell.map
          fun p => p.state) = some ProcessState.Running := by
  decide

/-- C7 (counterexample): on a Running session whose process does not exit
within the wait, the second of two successive closeEvent calls is not a no-op:
it requests termination and waits again. -/
theorem closeEvent_twice_not_noop :
    closeEvent (WaitOutcome.exited 9 ExitStatus.CrashExit)
        (closeEvent WaitOutcome.timedOut (windowWith ProcessState.Running ""))
      ≠ closeEvent WaitOutcome.timedOut (windowWith ProcessState.Running "")
    ∧ callsOf (closeEvent WaitOutcome.timedOut (windowWith ProcessState.Running ""))
      = [ProcessCall.start, ProcessCall.waitForStarted 3000, ProcessCall.terminate, ProcessCall.waitForFinished 1000,
         ProcessCall.kill]
    ∧ callsOf (closeEvent WaitOutcome.timedOut
        (closeEvent WaitOutcome.timedOut (windowWith ProcessState.Running "")))
      = [ProcessCall.start, ProcessCall.waitForStarted 3000, ProcessCall.terminate, ProcessCall.waitForFinished 1000,
         ProcessCall.kill, ProcessCall.terminate, ProcessCall.waitForFinished 1000,
         ProcessCall.kill] := by
  decide

/-- C7 (amended): closeEvent on a session whose process is NotRunning issues no
call and changes nothing; on a Running session whose process exits within the
wait of the first call, that call takes the process to NotRunning and a second
call in succession changes nothing and issues no call. -/
theorem closeEvent_idempotent (wait1 wait2 : WaitOutcome) (w : TerminalWindow)
    (p : QProcess) (hp : w.shell = some p)
    (h : p.state = ProcessState.NotRunning
      ∨ (p.state = ProcessState.Running ∧ wait1 ≠ WaitOutcome.timedOut)) :
    closeEvent wait2 (closeEvent wait1 w) = closeEvent wait1 w
      ∧ callsOf (closeEvent wait2 (closeEvent wait1 w)) = callsOf (closeEvent wait1 w)
      ∧ ((closeEvent wait1 w).shell.map fun q => q.state) = some ProcessState.NotRunning
      ∧ (p.state = ProcessState.NotRunning → closeEvent wait1 w = w) := by
  have hstate : ((closeEvent wait1 w).shell.map fun q => q.state)
      = some ProcessState.NotRunning := by
    rcases h with h | ⟨h, hw⟩
    · rw [closeEvent_notAlive wait1 w (Or.inr ⟨p, hp, h⟩)]; simp [hp, h]
    · cases wait1 with
      | timedOut => exact absurd rfl hw
      | exited exitCode status =>
        have hs : p.state ≠ ProcessState.NotRunning := by rw [h]; decide
        rw [closeEvent_exited exitCode status w p hp hs,
          deliverAll_exitSignals_state exitCode status _
            { p with calls := p.calls ++ [ProcessCall.terminate]
                       ++ [ProcessCall.waitForFinished 1000] }
            (by simp [terminate, call, hp])]
        rfl
  have hnoop : closeEvent wait2 (closeEvent wait1 w) = closeEvent wait1 w := by
    apply closeEvent_notAlive
    cases hq : (closeEvent wait1 w).shell with
    | none => exact Or.inl rfl
    | some q =>
      rw [hq] at hstate
      exact Or.inr ⟨q, rfl, by simpa using hstate⟩
  exact ⟨hnoop, by rw [hnoop], hstate,
    fun hn => closeEvent_notAlive wait1 w (Or.inr ⟨p, hp, hn⟩)⟩

theorem closeEvent_idempotent_witness :
    closeEvent WaitOutcome.timedOut
        (closeEvent (WaitOutcome.exited 0 ExitStatus.NormalExit)
          (windowWith ProcessState.Running ""))
      = closeEvent (WaitOutcome.exited 0 ExitStatus.NormalExit)
          (windowWith ProcessState.Running "")
    ∧ callsOf (closeEvent WaitOutcome.timedOut
        (closeEvent (WaitOutcome.exited 0 ExitStatus.NormalExit)
          (windowWith ProcessState.Running "")))
      = callsOf (closeEvent (WaitOutcome.exited 0 ExitStatus.NormalExit)
          (windowWith ProcessState.Running ""))
    ∧ ((closeEvent (WaitOutcome.exited 0 ExitStatus.NormalExit)
          (windowWith ProcessState.Running "")).shell.map fun q => q.state)
      = some ProcessState.NotRunning
    ∧ (ProcessState.Running = ProcessState.NotRunning →
        closeEvent (WaitOutcome.exited 0 ExitStatus.NormalExit)
          (windowWith ProcessState.Running "") = windowWith ProcessState.Running "") :=
  closeEvent_idempotent (WaitOutcome.exited 0 ExitStatus.NormalExit) WaitOutcome.timedOut
    (windowWith ProcessState.Running "") _ rfl (Or.inr ⟨rfl, by decide⟩)

/-! ## Lifecycle reports -/

/-- The eighth character of a finished report is `i`, whatever the exit code. -/
theorem finished_report_char (s : String) :
    ("Shell finished (exit code " ++ s ++ ")").data.get? 7 = some 'i' := by
  simp [String.data_append]

/-- A finished report differs from every message whose eighth character is not `i`. -/
theorem finished_report_ne (s t : String) (ht : t.data.get? 7 ≠ some 'i') :
    "Shell finished (exit code " ++ s ++ ")" ≠ t := by
  intro h
  exact ht (h ▸ finished_report_char s)

/-- C9: shellFinished reports "Shell crashed" for a crash exit and
"Shell finished (exit code N)" otherwise; shellError reports
"Shell failed to start", "Shell crashed", or "Shell error" for any other
error; each handler puts its message in the status label, appends it to the
output and disables the input; the four messages are pairwise different. -/
theorem lifecycle_reports (exitCode : Int) (error : ProcessError) (w : TerminalWindow) :
    shellFinished exitCode ExitStatus.CrashExit w =
        { w with statusLabel := "Shell crashed", inputEnabled := false,
                 output := w.output ++ ["Shell crashed"] }
      ∧ shellFinished exitCode ExitStatus.NormalExit w =
        { w with statusLabel := "Shell finished (exit code " ++ toString exitCode ++ ")",
                 inputEnabled := false,
                 output := w.output
                   ++ ["Shell finished (exit code " ++ toString exitCode ++ ")"] }
      ∧ shellError ProcessError.FailedToStart w =
        { w with statusLabel := "Shell failed to start", inputEnabled := false,
                 output := w.output ++ ["Shell failed to start"] }
      ∧ shellError ProcessError.Crashed w =
        { w with statusLabel := "Shell crashed", inputEnabled := false,
                 output := w.output ++ ["Shell crashed"] }
      ∧ (error ≠ ProcessError.FailedToStart → error ≠ ProcessError.Crashed →
          shellError error w =
            { w with statusLabel := "Shell error", inputEnabled := false,
                     output := w.output ++ ["Shell error"] })
      ∧ (shellError error w).inputEnabled = false
      ∧ "Shell finished (exit code " ++ toString exitCode ++ ")" ≠ "Shell crashed"
      ∧ "Shell finished (exit code " ++ toString exitCode ++ ")" ≠ "Shell failed to start"
      ∧ "Shell finished (exit code " ++ toString exitCode ++ ")" ≠ "Shell error"
      ∧ "Shell crashed" ≠ "Shell failed to start"
      ∧ "Shell crashed" ≠ "Shell error"
      ∧ "Shell failed to start" ≠ "Shell error" := by
  refine ⟨rfl, rfl, rfl, rfl, ?_, rfl, ?_, ?_, ?_, by decide, by decide, by decide⟩
  · intro h1 h2
    cases error <;> first | exact absurd rfl h1 | exact absurd rfl h2 | rfl
  · exact finished_report_ne _ _ (by decide)
  · exact finished_report_ne _ _ (by decide)
  · exact finished_report_ne _ _ (by decide)

theorem lifecycle_reports_witness :
    shellError ProcessError.WriteError (windowWith ProcessState.Running "ls") =
      { windowWith ProcessState.Running "ls" with
          statusLabel := "Shell error", inputEnabled := false,
          output := (windowWith ProcessState.Running "ls").output ++ ["Shell error"] } :=
  (lifecycle_reports 0 ProcessError.WriteError (windowWith ProcessState.Running "ls")).2.2.2.2.1
    (by decide) (by decide)

/-- Each slot appends one report for a terminal signal and none for `started`. -/
theorem deliver_output_length (w : TerminalWindow) (s : Signal) :
    (deliver w s).output.length = w.output.length + (if s.isTerminal then 1 else 0) := by
  cases s <;> simp [deliver, slot, shellStarted, shellFinished, shellError, Signal.isTerminal]

/-- The reports appended by a sequence of signals are as many as its terminal
signals. -/
theorem deliverAll_output_length (sigs : List Signal) (w : TerminalWindow) :
    (deliverAll w sigs).output.length
      = w.output.length + (sigs.filter Signal.isTerminal).length := by
  induction sigs generalizing w with
  | nil => simp [deliverAll]
  | cons s rest ih =>
    have h1 : deliverAll w (s :: rest) = deliverAll (deliver w s) rest := rfl
    rw [h1, ih, deliver_output_length]
    cases hs : s.isTerminal
    · simp [List.filter, hs]
    · simp [List.filter, hs]; omega

/-- C6 (counterexample): a crash announced by an error signal and a finished
signal delivers the report twice, and a failed launch delivers one report from
shellError and one from the failure branch of startShell. -/
theorem terminal_report_twice :
    (deliverAll (windowWith ProcessState.Running "")
        [Signal.errorOccurred ProcessError.Crashed,
         Signal.finished 9 ExitStatus.CrashExit]).output
      = ["Starting /bin/sh...\n", "Shell crashed", "Shell crashed"]
    ∧ (startShell [("SHELL", "/no/such/shell")]
        [Signal.errorOccurred ProcessError.FailedToStart] false freshWindow).output
      = ["Starting /no/such/shell...\n", "Shell failed to start",
         "Failed to start shell."] := by
  decide

/-- C6 (amended): the handlers deliver one report per terminal notification.
A sequence of signals appends as many reports as it has finished and error
signals, startShell adds its start line, those reports, and one more report
when the start wait fails; a normal exit, announced by the finished signal
alone, and a start wait that fails without an error signal each deliver
exactly one report. -/
theorem terminal_reports_count (env : List (String × String)) (sigs : List Signal)
    (startedInTime : Bool) (exitCode : Int) (w : TerminalWindow) :
    (deliverAll w sigs).output.length
        = w.output.length + (sigs.filter Signal.isTerminal).length
      ∧ (startShell env sigs startedInTime w).output.length
        = w.output.length + 1 + (sigs.filter Signal.isTerminal).length
            + (if startedInTime then 0 else 1)
      ∧ (deliverAll w (exitSignals exitCode ExitStatus.NormalExit)).output
        = w.output ++ ["Shell finished (exit code " ++ toString exitCode ++ ")"]
      ∧ (startShell env [] false w).output
        = w.output ++ ["Starting " ++ resolveShellPath env ++ "...\n",
                       "Failed to start shell."] := by
  refine ⟨deliverAll_output_length sigs w, ?_, rfl, ?_⟩
  · cases startedInTime <;>
      simp [startShell, deliverAll_output_length, call]
  · simp [startShell, deliverAll, call]

/-- C8 (counterexample): a write error reported while the process is Running
leaves the process Running but disables the input. -/
theorem generic_error_disables_input :
    (windowWith ProcessState.Running "ls").inputEnabled = true
    ∧ ((deliver (windowWith ProcessState.Running "ls")
          (Signal.errorOccurred ProcessError.WriteError)).shell.map fun p => p.state)
        = some ProcessState.Running
    ∧ (shellError ProcessError.WriteError
          (windowWith ProcessState.Running "ls")).inputEnabled = false
    ∧ (deliver (windowWith ProcessState.Running "ls")
          (Signal.errorOccurred ProcessError.WriteError)).inputEnabled = false := by
  decide

/-- C8 (amended): an error other than FailedToStart and Crashed is surfaced by
shellError as "Shell error" in the status label and the output; the process,
its state included, and the pending input text are left as they are, but the
input is disabled. -/
theorem shellError_generic (error : ProcessError) (w : TerminalWindow)
    (h1 : error ≠ ProcessError.FailedToStart) (h2 : error ≠ ProcessError.Crashed) :
    (shellError error w).statusLabel = "Shell error"
      ∧ (shellError error w).output = w.output ++ ["Shell error"]
      ∧ (shellError error w).shell = w.shell
      ∧ (deliver w (Signal.errorOccurred error)).shell = w.shell
      ∧ (shellError error w).inputText = w.inputText
      ∧ (shellError error w).inputEnabled = false := by
  have hm : errorMsg error = "Shell error" := by
    cases error <;> first | exact absurd rfl h1 | exact absurd rfl h2 | rfl
  have hd : (deliver w (Signal.errorOccurred error)).shell = w.shell := by
    rw [deliver_shell]
    cases hw : w.shell with
    | none => rfl
    | some p =>
      cases error <;> first | exact absurd rfl h1 | exact absurd rfl h2 | rfl
  exact ⟨by simp [shellError, hm], by simp [shellError, hm], rfl, hd, rfl, rfl⟩

theorem shellError_generic_witness :
    (shellError ProcessError.ReadError (windowWith ProcessState.Running "ls")).statusLabel
        = "Shell error"
      ∧ (shellError ProcessError.ReadError (windowWith ProcessState.Running "ls")).output
        = (windowWith ProcessState.Running "ls").output ++ ["Shell error"]
      ∧ (shellError ProcessError.ReadError (windowWith ProcessState.Running "ls")).shell
        = (windowWith ProcessState.Running "ls").shell
      ∧ (deliver (windowWith ProcessState.Running "ls")
          (Signal.errorOccurred ProcessError.ReadError)).shell
        = (windowWith ProcessState.Running "ls").shell
      ∧ (shellError ProcessError.ReadError (windowWith ProcessState.Running "ls")).inputText
        = (windowWith ProcessState.Running "ls").inputText
      ∧ (shellError ProcessError.ReadError
          (windowWith ProcessState.Running "ls")).inputEnabled = false :=
  shellError_generic ProcessError.ReadError (windowWith ProcessState.Running "ls")
    (by decide) (by decide)

/-! ## Shell path -/

/-- The resolved shell path is the value of `SHELL` unless that is missing or
empty. -/
theorem resolveShellPath_eq (env : List (String × String)) :
    resolveShellPath env =
      match env.lookup "SHELL" with
      | some v => if v = "" then "/bin/sh" else v
      | none => "/bin/sh" := by
  unfold resolveShellPath qgetenv
  cases h : env.lookup "SHELL" with
  | none => rfl
  | some v =>
    by_cases hv : v = ""
    · subst hv; rfl
    · have he : v.isEmpty = false := by
        cases h' : v.isEmpty
        · rfl
        · exact absurd ((String.isEmpty_iff _).1 h') hv
      simp [he, hv]

/-- C10: the program launched by startShell is the value of the SHELL
environment variable when the environment has a non-empty one, and "/bin/sh"
when SHELL is unset or empty; the program path is never empty. -/
theorem startShell_program (env : List (String × String)) (sigs : List Signal)
    (startedInTime : Bool) (w : TerminalWindow) :
    ((startShell env sigs startedInTime w).shell.map fun p => p.program)
        = some (match env.lookup "SHELL" with
                | some v => if v = "" then "/bin/sh" else v
                | none => "/bin/sh")
      ∧ ((startShell env sigs startedInTime w).shell.map fun p => p.program) ≠ some "" := by
  have hp : ((startShell env sigs startedInTime w).shell.map fun p => p.program)
      = some (resolveShellPath env) := by
    cases startedInTime <;>
      simp only [startShell, Bool.not_false, Bool.not_true, if_true, if_false] <;>
      first
      | (rw [deliverAll_shell_map (fun p => p.program) (fun _ _ => rfl)]; rfl)
      | (simp only [Bool.false_eq_true, if_false]
         rw [deliverAll_shell_map (fun p => p.program) (fun _ _ => rfl)]; rfl)
  rw [hp, resolveShellPath_eq]
  refine ⟨rfl, ?_⟩
  cases env.lookup "SHELL" with
  | none => decide
  | some v =>
    by_cases hv : v = ""
    · subst hv; decide
    · simp [hv]

end MyTerminal
